import Mathlib

/-!
Verification of the ScanLink desktop core (src-tauri/src): pairing and
transport protocol (websocket.rs), supervisor commands (lib.rs), crypto
wrapper (security.rs), credential store (storage.rs) and the keystroke
injection backends (keyboard.rs), shallowly embedded as executable Lean
definitions.  State that Rust keeps behind `Arc<Mutex<..>>` is passed
explicitly; randomness and clock reads are supplied by explicit oracle
parameters; Rust strings are modelled by `String` and byte buffers by
`List Nat` with every byte `< 256`.
-/

set_option maxRecDepth 20000

deriving instance DecidableEq for Except

namespace ScanLink

/-! ## Base64 (models the external `base64` crate, STANDARD engine)

`security.rs` uses `base64::engine::general_purpose::STANDARD` for keys and
blobs.  Modelled from the spec: standard alphabet, mandatory `=` padding,
canonical trailing bits required, decoding to `none` on any malformed input
(the crate's `DecodeError` detail text is immaterial here). -/

def b64chars : List Char :=
  ['A', 'B', 'C', 'D', 'E', 'F', 'G', 'H', 'I', 'J', 'K', 'L', 'M',
   'N', 'O', 'P', 'Q', 'R', 'S', 'T', 'U', 'V', 'W', 'X', 'Y', 'Z',
   'a', 'b', 'c', 'd', 'e', 'f', 'g', 'h', 'i', 'j', 'k', 'l', 'm',
   'n', 'o', 'p', 'q', 'r', 's', 't', 'u', 'v', 'w', 'x', 'y', 'z',
   '0', '1', '2', '3', '4', '5', '6', '7', '8', '9', '+', '/']

def encChar (i : Nat) : Char := b64chars.getD i '?'

def decChar (c : Char) : Option Nat := b64chars.findIdx? (fun x => x = c)

def b64encode : List Nat → List Char
  | [] => []
  | [b1] => [encChar (b1 / 4), encChar (b1 % 4 * 16), '=', '=']
  | [b1, b2] =>
      [encChar (b1 / 4), encChar (b1 % 4 * 16 + b2 / 16), encChar (b2 % 16 * 4), '=']
  | b1 :: b2 :: b3 :: rest =>
      encChar (b1 / 4) :: encChar (b1 % 4 * 16 + b2 / 16) ::
      encChar (b2 % 16 * 4 + b3 / 64) :: encChar (b3 % 64) :: b64encode rest

def b64decode : List Char → Option (List Nat)
  | [] => some []
  | [_] => none
  | [_, _] => none
  | [_, _, _] => none
  | c1 :: c2 :: c3 :: c4 :: rest =>
    match decChar c1, decChar c2 with
    | some v1, some v2 =>
      if c3 = '=' then
        if c4 = '=' ∧ rest = [] then
          if v2 % 16 = 0 then some [v1 * 4 + v2 / 16] else none
        else none
      else
        match decChar c3 with
        | some v3 =>
          if c4 = '=' then
            if rest = [] then
              if v3 % 4 = 0 then some [v1 * 4 + v2 / 16, v2 % 16 * 16 + v3 / 4]
              else none
            else none
          else
            match decChar c4 with
            | some v4 =>
              match b64decode rest with
              | some bs =>
                  some ((v1 * 4 + v2 / 16) :: (v2 % 16 * 16 + v3 / 4) ::
                        (v3 % 4 * 64 + v4) :: bs)
              | none => none
            | none => none
        | none => none
    | _, _ => none

/-! ## UTF-8 (models Rust string/byte conversions)

Rust `&str` values are modelled by Lean `String`; `str::as_bytes` is
`strBytes` below, and `String::from_utf8`'s validity check is `isValidUtf8`
(strict UTF-8: no overlongs, no surrogates, max U+10FFFF). -/

def isContB (b : Nat) : Bool := 128 ≤ b && b ≤ 191

def utf8Second3 (b b2 : Nat) : Bool :=
  if b = 224 then 160 ≤ b2 && b2 ≤ 191
  else if b = 237 then 128 ≤ b2 && b2 ≤ 159
  else isContB b2

def utf8Second4 (b b2 : Nat) : Bool :=
  if b = 240 then 144 ≤ b2 && b2 ≤ 191
  else if b = 244 then 128 ≤ b2 && b2 ≤ 143
  else isContB b2

def isValidUtf8 : List Nat → Bool
  | [] => true
  | b :: rest =>
    if b < 128 then isValidUtf8 rest
    else if b < 194 then false
    else if b ≤ 223 then
      match rest with
      | b2 :: r => isContB b2 && isValidUtf8 r
      | [] => false
    else if b ≤ 239 then
      match rest with
      | b2 :: b3 :: r => utf8Second3 b b2 && isContB b3 && isValidUtf8 r
      | _ => false
    else if b ≤ 244 then
      match rest with
      | b2 :: b3 :: b4 :: r =>
          utf8Second4 b b2 && isContB b3 && isContB b4 && isValidUtf8 r
      | _ => false
    else false

def utf8EncodeChar (n : Nat) : List Nat :=
  if n < 128 then [n]
  else if n < 2048 then [192 + n / 64, 128 + n % 64]
  else if n < 65536 then [224 + n / 4096, 128 + n / 64 % 64, 128 + n % 64]
  else [240 + n / 262144, 128 + n / 4096 % 64, 128 + n / 64 % 64, 128 + n % 64]

def strBytes (s : String) : List Nat :=
  s.data.foldr (fun c acc => utf8EncodeChar c.toNat ++ acc) []

/-! ## Colon splitting (models `str::splitn(3, ':')` at the byte level)

`security.rs` splits the decrypted token payload on `:`; since `:` (byte 58)
never occurs inside a multi-byte UTF-8 sequence, splitting the byte string is
faithful to splitting the Rust string. -/

def splitAtColon : List Nat → List Nat × Option (List Nat)
  | [] => ([], none)
  | b :: rest =>
    if b = 58 then ([], some rest)
    else
      let (pre, post) := splitAtColon rest
      (b :: pre, post)

def splitnColon : Nat → List Nat → List (List Nat)
  | 0, _ => []
  | 1, bs => [bs]
  | n + 2, bs =>
    match splitAtColon bs with
    | (pre, some post) => pre :: splitnColon (n + 1) post
    | (_, none) => [bs]

/-! ## AEAD cipher

Modelled from the spec: the `Aes256Gcm` cipher of the external `aes_gcm`
crate (not part of this repository).  §4.1 of the spec specifies
`encrypt(secret_key, plaintext) → base64(nonce‖ciphertext‖tag)` with a
per-call 12-byte nonce and tamper-detecting authentication.  The model keeps
that interface and its algebra: a keystream XORed over the plaintext
(length-preserving, involutive) plus a 16-byte tag recomputed and compared on
decryption; the concrete mixing functions stand in for AES internals. -/

def foldBytes (bs : List Nat) : Nat :=
  bs.foldl (fun a b => (a * 131 + b + 1) % 4294967296) 17

def keystreamByte (kb nonce : List Nat) (i : Nat) : Nat :=
  (foldBytes kb * 2654435761 + foldBytes nonce * 40503 + i * 2246822519 +
    1013904223) % 256

def ctrXor (kb nonce : List Nat) : Nat → List Nat → List Nat
  | _, [] => []
  | i, b :: rest => (b ^^^ keystreamByte kb nonce i) :: ctrXor kb nonce (i + 1) rest

def tagBytes (kb nonce ct : List Nat) : List Nat :=
  (List.range 16).map (fun j =>
    (ct.foldl (fun a b => (a * 257 + b + 1) % 4294967296)
      (foldBytes kb * 31 + foldBytes nonce * 7 + j)) % 256)

def aeadEncrypt (kb nonce pt : List Nat) : List Nat :=
  ctrXor kb nonce 0 pt ++ tagBytes kb nonce (ctrXor kb nonce 0 pt)

def aeadDecrypt (kb nonce data : List Nat) : Option (List Nat) :=
  if data.length < 16 then none
  else
    let ct := data.take (data.length - 16)
    let tag := data.drop (data.length - 16)
    if tag = tagBytes kb nonce ct then some (ctrXor kb nonce 0 ct) else none

/-! ## security.rs

`encrypt`, `decrypt`, `create_auth_token`, `validate_auth_token`, translated
from src-tauri/src/security.rs.  The random nonce drawn from `OsRng` inside
`encrypt` is an explicit parameter; `chrono::Utc::now().timestamp()` in
`create_auth_token` likewise.  The `{}` details interpolated into error
strings come from external crates' `Display` impls and are modelled by fixed
placeholder texts (only the stage-identifying prefix matters). -/

def NONCE_SIZE : Nat := 12

def invalidKeyErr : String := "Invalid secret key: invalid base64"

def invalidDataErr : String := "Invalid encrypted data: invalid base64"

def tooShortErr : String := "Encrypted data too short"

def decryptFailedErr : String := "Decryption failed - invalid token or tampered data"

def invalidUtf8Err : String := "Invalid UTF-8: invalid byte sequence"

/-- Model of `security::encrypt`.  `plaintext` is the byte string of the Rust `&str`
argument (`plaintext.as_bytes()`); the result is the base64 blob.  The
`Failed to create cipher` and `Encryption failed` branches of the source are
unreachable for a 32-byte key and are not modelled. -/
def encrypt (secret_key : String) (nonce : List Nat) (plaintext : List Nat) :
    Except String String :=
  match b64decode secret_key.data with
  | none => .error invalidKeyErr
  | some key_bytes =>
    if key_bytes.length ≠ 32 then .error "Secret key must be 32 bytes"
    else .ok (String.mk (b64encode (nonce ++ aeadEncrypt key_bytes nonce plaintext)))

/-- Model of `security::decrypt`.  Returns the plaintext as its UTF-8 byte string. -/
def decrypt (secret_key : String) (encrypted : String) : Except String (List Nat) :=
  match b64decode secret_key.data with
  | none => .error invalidKeyErr
  | some key_bytes =>
    if key_bytes.length ≠ 32 then .error "Secret key must be 32 bytes"
    else
      match b64decode encrypted.data with
      | none => .error invalidDataErr
      | some data =>
        if data.length < NONCE_SIZE then .error tooShortErr
        else
          match aeadDecrypt key_bytes (data.take NONCE_SIZE) (data.drop NONCE_SIZE) with
          | none => .error decryptFailedErr
          | some plaintext =>
            if isValidUtf8 plaintext then .ok plaintext else .error invalidUtf8Err

/-- Model of `security::create_auth_token`: encrypt `"scanlink:" + device_id + ":" + now`;
on encryption failure log and return the empty string. -/
def create_auth_token (device_id secret_key : String) (now : Int) (nonce : List Nat) :
    String :=
  let payload := strBytes ("scanlink:" ++ device_id ++ ":" ++ toString now)
  match encrypt secret_key nonce payload with
  | .ok token => token
  | .error _ => ""

/-- Model of `security::validate_auth_token`: decrypt, `splitn(3, ':')`, require at
least two parts with `parts[0] == "scanlink"` and `parts[1] == device_id`. -/
def validate_auth_token (token expected_device_id secret_key : String) : Bool :=
  match decrypt secret_key token with
  | .error _ => false
  | .ok payload =>
    let parts := splitnColon 3 payload
    decide (2 ≤ parts.length) && (parts.getD 0 [] == strBytes "scanlink") &&
      (parts.getD 1 [] == strBytes expected_device_id)

/-! ## storage.rs

`AppConfig` and its device-map operations, translated from
src-tauri/src/storage.rs.  The `HashMap<String, AuthorizedDevice>` keyed by
device id is modelled as an association list with unique keys; disk
persistence (`storage::load` / `storage::save`) is I/O and has no effect on
the in-memory state being verified, so `save` calls are modelled as no-ops. -/

structure AuthorizedDevice where
  device_id : String
  device_name : String
  device_model : Option String
  paired_at : String
  last_seen : String
deriving DecidableEq, Repr

def lookupKey {κ α : Type} [DecidableEq κ] (k : κ) : List (κ × α) → Option α
  | [] => none
  | (k', v) :: rest => if k' = k then some v else lookupKey k rest

def eraseKey {κ α : Type} [DecidableEq κ] (k : κ) (l : List (κ × α)) : List (κ × α) :=
  l.filter (fun p => decide (p.1 ≠ k))

def updateKey {κ α : Type} [DecidableEq κ] (k : κ) (f : α → α) (l : List (κ × α)) :
    List (κ × α) :=
  l.map (fun p => if p.1 = k then (p.1, f p.2) else p)

structure AppConfig where
  master_token : Option String
  secret_key : Option String
  authorized_devices : List (String × AuthorizedDevice)
  auto_start : Bool
  minimize_to_tray : Bool
  start_minimized : Bool
deriving DecidableEq, Repr

def AppConfig.add_device (cfg : AppConfig) (device : AuthorizedDevice) : AppConfig :=
  { cfg with authorized_devices :=
      (device.device_id, device) :: eraseKey device.device_id cfg.authorized_devices }

def AppConfig.remove_device (cfg : AppConfig) (device_id : String) : AppConfig :=
  { cfg with authorized_devices := eraseKey device_id cfg.authorized_devices }

def AppConfig.revoke_all_devices (cfg : AppConfig) : AppConfig :=
  { cfg with authorized_devices := [] }

def AppConfig.is_device_authorized (cfg : AppConfig) (device_id : String) : Bool :=
  (lookupKey device_id cfg.authorized_devices).isSome

/-! ## websocket.rs: session table, messages and protocol handlers

Translated from src-tauri/src/websocket.rs.  Each client's
`mpsc::UnboundedSender<Message>` is modelled by collecting the messages a
handler emits as a list of `(client_id, OutMsg)` pairs; the delivery channel
`barcode_sender` is modelled as the `queue` field of the server state. -/

structure ClientInfo where
  device_id : Option String
  device_name : Option String
  authenticated : Bool
deriving DecidableEq, Repr

/-- The JSON messages the server sends, one constructor per `serde_json::json!`
literal in websocket.rs. -/
inductive OutMsg where
  | handshake_ack (clientId : Nat) (timestamp : Int)
  | error_msg (message : String)
  | pair_ack (status auth_token device_id : String) (timestamp : Int)
  | reconnect_ack_err (status message : String)
  | reconnect_ack_ok (status device_id : String) (timestamp : Int)
  | scan_ack (status barcode : String)
deriving DecidableEq, Repr

structure BarcodeMessage where
  barcode : String
  timestamp : Int
  device_id : String
  device_name : Option String
deriving DecidableEq, Repr

structure PairRequest where
  device_id : String
  device_name : String
  device_model : Option String
  master_token : String
deriving DecidableEq, Repr

structure ReconnectRequest where
  device_id : String
  auth_token : String
deriving DecidableEq, Repr

structure ScanPayload where
  barcode : String
  barcode_type : Option String
deriving DecidableEq, Repr

structure ScanMessage where
  device_id : String
  device_name : Option String
  device_model : Option String
  timestamp : Int
  payload : Option ScanPayload
  token : Option String
  auth_token : Option String
deriving DecidableEq, Repr

/-- Environment values a handler draws during one message: the
`generate_secret_key()` result, the `OsRng` nonce inside `create_auth_token`,
and the `chrono::Utc::now()` readings. -/
structure Ora where
  fresh_key : String
  nonce : List Nat
  now_ts : Int
  now_iso : String
deriving DecidableEq, Repr

/-- The `WebSocketServer` struct plus its per-run transport state: `token` and `config`
are the fields of the Rust struct (the latter a clone of the supervisor's
config, wrapped in its own `Arc<Mutex<..>>`); `clients` and `next_client_id`
model the session table; `queue` models the delivery channel. -/
structure ServerSt where
  token : String
  config : AppConfig
  clients : List (Nat × ClientInfo)
  next_client_id : Nat
  queue : List BarcodeMessage
deriving DecidableEq, Repr

def send_to_client (clients : List (Nat × ClientInfo)) (client_id : Nat)
    (message : OutMsg) : List (Nat × OutMsg) :=
  match lookupKey client_id clients with
  | some _ => [(client_id, message)]
  | none => []

def send_error (clients : List (Nat × ClientInfo)) (client_id : Nat)
    (message : String) : List (Nat × OutMsg) :=
  send_to_client clients client_id (.error_msg message)

/-- Model of `remove_previous_device_connection`: drop every session other than
`current_client_id` whose `device_id` equals the given one. -/
def remove_previous_device_connection (clients : List (Nat × ClientInfo))
    (device_id : String) (current_client_id : Nat) : List (Nat × ClientInfo) :=
  clients.filter (fun p =>
    decide (p.1 = current_client_id ∨ p.2.device_id ≠ some device_id))

/-- Model of `handle_pair_request`.  Returns the updated server state and the emitted
messages. -/
def handle_pair_request (st : ServerSt) (client_id : Nat) (request : PairRequest)
    (o : Ora) : ServerSt × List (Nat × OutMsg) :=
  if request.master_token ≠ st.token then
    (st, send_error st.clients client_id "Invalid pairing token")
  else
    let cfg := st.config
    let cfg := if cfg.secret_key.isNone then { cfg with secret_key := some o.fresh_key }
               else cfg
    let secret_key := cfg.secret_key.getD ""
    let auth_token := create_auth_token request.device_id secret_key o.now_ts o.nonce
    let device : AuthorizedDevice :=
      ⟨request.device_id, request.device_name, request.device_model, o.now_iso, o.now_iso⟩
    let cfg := cfg.add_device device
    let clients := remove_previous_device_connection st.clients request.device_id client_id
    let clients := updateKey client_id
      (fun c => { c with authenticated := true, device_id := some request.device_id,
                          device_name := some request.device_name }) clients
    ({ st with config := cfg, clients := clients },
     send_to_client clients client_id
       (.pair_ack "paired" auth_token request.device_id o.now_ts))

/-- Model of `handle_reconnect_request`. -/
def handle_reconnect_request (st : ServerSt) (client_id : Nat)
    (request : ReconnectRequest) (o : Ora) : ServerSt × List (Nat × OutMsg) :=
  if ¬ st.config.is_device_authorized request.device_id then
    (st, send_to_client st.clients client_id
      (.reconnect_ack_err "unauthorized" "Device not authorized. Please pair again."))
  else
    match st.config.secret_key with
    | none => (st, send_error st.clients client_id "Server configuration error")
    | some secret_key =>
      if ¬ validate_auth_token request.auth_token request.device_id secret_key then
        (st, send_to_client st.clients client_id
          (.reconnect_ack_err "invalid_token" "Invalid auth token. Please pair again."))
      else
        let devices := updateKey request.device_id
          (fun d => { d with last_seen := o.now_iso }) st.config.authorized_devices
        let cfg := { st.config with authorized_devices := devices }
        let clients :=
          remove_previous_device_connection st.clients request.device_id client_id
        let device_name :=
          (lookupKey request.device_id cfg.authorized_devices).map (·.device_name)
        let clients := updateKey client_id
          (fun c => { c with authenticated := true, device_id := some request.device_id,
                              device_name := device_name }) clients
        ({ st with config := cfg, clients := clients },
         send_to_client clients client_id
           (.reconnect_ack_ok "connected" request.device_id o.now_ts))

/-- Model of `handle_scan_message`.  Note: unlike pair and reconnect, the source never
calls `remove_previous_device_connection` here. -/
def handle_scan_message (st : ServerSt) (client_id : Nat) (scan_msg : ScanMessage) :
    ServerSt × List (Nat × OutMsg) :=
  match scan_msg.payload with
  | none => (st, send_error st.clients client_id "Missing payload")
  | some payload =>
    let is_authenticated :=
      ((lookupKey client_id st.clients).map (·.authenticated)).getD false
    let valid : Bool :=
      if is_authenticated then
        st.config.is_device_authorized scan_msg.device_id
      else
        match scan_msg.auth_token with
        | some auth_token =>
          (match st.config.secret_key with
           | some secret_key =>
               st.config.is_device_authorized scan_msg.device_id &&
                 validate_auth_token auth_token scan_msg.device_id secret_key
           | none => false)
        | none =>
          match scan_msg.token with
          | some token => token == st.token
          | none => false
    if valid then
      let clients := updateKey client_id
        (fun c => { c with authenticated := true, device_id := some scan_msg.device_id,
                            device_name := scan_msg.device_name }) st.clients
      let ev : BarcodeMessage :=
        ⟨payload.barcode, scan_msg.timestamp, scan_msg.device_id, scan_msg.device_name⟩
      ({ st with clients := clients, queue := st.queue ++ [ev] },
       send_to_client clients client_id (.scan_ack "received" payload.barcode))
    else (st, send_error st.clients client_id "Invalid token")

/-- One inbound text frame as `handle_connection` classifies it: the result of
`serde_json::from_str` on the frame plus the typed re-parse for each known
action (the external serde parser is modelled by this classification). -/
inductive Frame where
  | notJson
  | noAction
  | handshake
  | pairOk (request : PairRequest)
  | pairBad
  | reconnectOk (request : ReconnectRequest)
  | reconnectBad
  | scanOk (scan_msg : ScanMessage)
  | scanBad
  | unknownAction (action : String)
deriving DecidableEq, Repr

/-- The dispatch on one inbound text frame inside `handle_connection`'s read
loop.  A frame that is not JSON, has no `action`, or has an unknown `action`
falls through with no reply; schema mismatches of known actions get an
`error` reply; the socket stays open in every case. -/
def handle_text_frame (st : ServerSt) (client_id : Nat) (f : Frame) (o : Ora) :
    ServerSt × List (Nat × OutMsg) :=
  match f with
  | .notJson => (st, [])
  | .noAction => (st, [])
  | .handshake =>
      (st, send_to_client st.clients client_id (.handshake_ack client_id o.now_ts))
  | .pairOk request => handle_pair_request st client_id request o
  | .pairBad => (st, send_error st.clients client_id "Invalid pair request format")
  | .reconnectOk request => handle_reconnect_request st client_id request o
  | .reconnectBad =>
      (st, send_error st.clients client_id "Invalid reconnect request format")
  | .scanOk scan_msg => handle_scan_message st client_id scan_msg
  | .scanBad => (st, send_error st.clients client_id "Invalid scan message format")
  | .unknownAction _ => (st, [])

/-- The prologue of `handle_connection`: assign the next client id and insert
an unauthenticated session. -/
def accept_client (st : ServerSt) : ServerSt × Nat :=
  let client_id := st.next_client_id
  ({ st with clients := (client_id, ⟨none, none, false⟩) :: st.clients,
             next_client_id := client_id + 1 }, client_id)

/-- Model of `get_connected_count`: distinct `device_id`s over authenticated sessions. -/
def get_connected_count (st : ServerSt) : Nat :=
  ((st.clients.filterMap
      (fun p => if p.2.authenticated then p.2.device_id else none)).dedup).length

/-- Invariant of spec §8.1: at most one live session is authenticated for any
one device id. -/
def at_most_one_session_per_device (clients : List (Nat × ClientInfo)) : Prop :=
  ∀ p ∈ clients, ∀ q ∈ clients,
    p.2.authenticated → q.2.authenticated → p.2.device_id = q.2.device_id →
    p.2.device_id ≠ none → p.1 = q.1

instance (clients : List (Nat × ClientInfo)) :
    Decidable (at_most_one_session_per_device clients) := by
  unfold at_most_one_session_per_device
  infer_instance

/-! ## lib.rs: the supervisor

Translated from src-tauri/src/lib.rs.  `AppState`'s `server`,
`connection_info` and `config` mutexes become plain fields; the Tauri
`AppHandle`, QR image generation, mDNS and the `starting` guard (pure
concurrency plumbing) are out of scope of the claims and omitted.  The fresh
master token from `generate_token()` and the LAN IP are parameters. -/

structure ConnectionInfo where
  ip : String
  port : Nat
  token : String
  secret_key : Option String
deriving DecidableEq, Repr

structure AppSt where
  connection_info : Option ConnectionInfo
  server : Option ServerSt
  config : AppConfig
deriving DecidableEq, Repr

/-- Model of `start_server`: shut down any existing server, build `ConnectionInfo`
with `secret_key: None`, and create a fresh `WebSocketServer` whose config is
a CLONE of the supervisor's config at this instant. -/
def start_server (a : AppSt) (token ip : String) : AppSt :=
  { a with
    connection_info := some ⟨ip, 8081, token, none⟩,
    server := some ⟨token, a.config, [], 0, []⟩ }

def stop_server (a : AppSt) : AppSt :=
  { a with server := none, connection_info := none }

/-- Model of `revoke_device`: removes the device from the supervisor's config (and
saves to disk).  The running server's cloned config is not touched. -/
def revoke_device (a : AppSt) (device_id : String) : AppSt :=
  { a with config := a.config.remove_device device_id }

/-- Model of `regenerate_token`: stop the server, then `start_server` with a fresh
token. -/
def regenerate_token (a : AppSt) (token ip : String) : AppSt :=
  start_server { a with server := none } token ip

/-- Run a server-level step (accepting or handling a frame) inside the
supervisor state; no-op when no server is live. -/
def on_server (a : AppSt) (f : ServerSt → ServerSt × List (Nat × OutMsg)) :
    AppSt × List (Nat × OutMsg) :=
  match a.server with
  | some st =>
      let r := f st
      ({ a with server := some r.1 }, r.2)
  | none => (a, [])

def app_accept (a : AppSt) : AppSt :=
  match a.server with
  | some st => { a with server := some (accept_client st).1 }
  | none => a

def app_handle (a : AppSt) (client_id : Nat) (f : Frame) (o : Ora) :
    AppSt × List (Nat × OutMsg) :=
  on_server a (fun st => handle_text_frame st client_id f o)

/-! ## keyboard.rs: injection backends

Translated from src-tauri/src/keyboard.rs.  The OS clipboard is an
`Option String` (`None` = no text available); synthesized keystrokes are
collected in a list.  External command/library calls (`wl-copy`, `ydotool`,
`xdotool`, `arboard`, `enigo`) succeed or fail according to the `KbEnv`
flags, mirroring each `return Err(..)` branch of the source; `thread::sleep`
calls have no observable effect here. -/

inductive KeyEvt where
  | ctrlV
  | enter
deriving DecidableEq, Repr

structure KbEnv where
  is_wayland : Bool
  ydotool_available : Bool
  xdotool_available : Bool
  wl_copy_available : Bool
  clipboard_set_ok : Bool
  clipboard_new_ok : Bool
  set_text_ok : Bool
  paste_cmd_ok : Bool
  enter_cmd_ok : Bool
  enigo_new_ok : Bool
  key_ctrl_press_ok : Bool
  key_v_ok : Bool
  key_ctrl_release_ok : Bool
  key_enter_ok : Bool
deriving DecidableEq, Repr

/-- Model of `type_barcode_ydotool`: set the clipboard to the barcode (via `wl-copy`
or `arboard`), emit Ctrl+V and Enter via `ydotool`.  The previous clipboard
content is never read and never written back. -/
def type_barcode_ydotool (env : KbEnv) (barcode : String) (_clip : Option String) :
    Except String (Option String × List KeyEvt) :=
  if !env.clipboard_set_ok then .error "Failed to set clipboard content"
  else
    let clip := some barcode
    if !env.paste_cmd_ok then .error "Failed to execute ydotool paste: io error"
    else if !env.enter_cmd_ok then .error "Failed to execute ydotool enter: io error"
    else .ok (clip, [KeyEvt.ctrlV, KeyEvt.enter])

/-- Model of `type_barcode_xdotool`: set the clipboard to the barcode via `arboard`,
emit Ctrl+V and Return via `xdotool`.  The previous clipboard content is
never read and never written back. -/
def type_barcode_xdotool (env : KbEnv) (barcode : String) (_clip : Option String) :
    Except String (Option String × List KeyEvt) :=
  if !env.clipboard_new_ok then .error "Failed to access clipboard: unavailable"
  else if !env.set_text_ok then .error "Failed to set clipboard: io error"
  else
    let clip := some barcode
    if !env.paste_cmd_ok then .error "Failed to execute xdotool paste: io error"
    else if !env.enter_cmd_ok then .error "Failed to execute xdotool enter: io error"
    else .ok (clip, [KeyEvt.ctrlV, KeyEvt.enter])

/-- Model of `type_barcode_enigo`: snapshot the clipboard (`get_text().ok()`), set the
barcode, emit Ctrl+V and Return through `enigo`, then write the previous
content back if there was one (restore failure is ignored). -/
def type_barcode_enigo (env : KbEnv) (barcode : String) (clip : Option String) :
    Except String (Option String × List KeyEvt) :=
  if !env.clipboard_new_ok then .error "Failed to access clipboard: unavailable"
  else
    let previous_content := clip
    if !env.set_text_ok then .error "Failed to set clipboard: io error"
    else
      let clip := some barcode
      if !env.enigo_new_ok then .error "Failed to initialize keyboard simulator: err"
      else if !env.key_ctrl_press_ok then .error "Failed to press Ctrl: err"
      else if !env.key_v_ok then .error "Failed to press V: err"
      else if !env.key_ctrl_release_ok then .error "Failed to release Ctrl: err"
      else if !env.key_enter_ok then .error "Failed to press Enter: err"
      else
        let clip := match previous_content with
          | some prev => some prev
          | none => clip
        .ok (clip, [KeyEvt.ctrlV, KeyEvt.enter])

/-- Model of `type_barcode`: runtime backend selection. -/
def type_barcode (env : KbEnv) (barcode : String) (clip : Option String) :
    Except String (Option String × List KeyEvt) :=
  if env.is_wayland then
    if env.ydotool_available then type_barcode_ydotool env barcode clip
    else
      match type_barcode_enigo env barcode clip with
      | .ok r => .ok r
      | .error _ =>
          .error "Input simulation not available on Wayland without ydotool. Install with: sudo apt install ydotool"
  else if env.xdotool_available then type_barcode_xdotool env barcode clip
  else type_barcode_enigo env barcode clip

/-! ## Supporting lemmas -/

lemma decChar_encChar : ∀ i, i < 64 → decChar (encChar i) = some i := by decide

lemma encChar_ne_pad : ∀ i, i < 64 → encChar i ≠ '=' := by decide

lemma b64decode_pad2 (v1 v2 : Nat) (h1 : v1 < 64) (h2 : v2 < 64) (h : v2 % 16 = 0) :
    b64decode [encChar v1, encChar v2, '=', '='] = some [v1 * 4 + v2 / 16] := by
  simp only [b64decode, decChar_encChar v1 h1, decChar_encChar v2 h2]
  simp [h]

lemma b64decode_pad1 (v1 v2 v3 : Nat) (h1 : v1 < 64) (h2 : v2 < 64) (h3 : v3 < 64)
    (h : v3 % 4 = 0) :
    b64decode [encChar v1, encChar v2, encChar v3, '='] =
      some [v1 * 4 + v2 / 16, v2 % 16 * 16 + v3 / 4] := by
  simp only [b64decode, decChar_encChar v1 h1, decChar_encChar v2 h2,
    decChar_encChar v3 h3]
  simp [encChar_ne_pad v3 h3, h]

lemma b64decode_chunk (v1 v2 v3 v4 : Nat) (rest : List Char)
    (h1 : v1 < 64) (h2 : v2 < 64) (h3 : v3 < 64) (h4 : v4 < 64) :
    b64decode (encChar v1 :: encChar v2 :: encChar v3 :: encChar v4 :: rest) =
      (b64decode rest).map
        (fun bs => (v1 * 4 + v2 / 16) :: (v2 % 16 * 16 + v3 / 4) ::
                   (v3 % 4 * 64 + v4) :: bs) := by
  simp only [b64decode, decChar_encChar v1 h1, decChar_encChar v2 h2,
    decChar_encChar v3 h3, decChar_encChar v4 h4]
  simp only [encChar_ne_pad v3 h3, encChar_ne_pad v4 h4, if_false]
  cases b64decode rest <;> simp

theorem b64_roundtrip : ∀ bs : List Nat, (∀ b ∈ bs, b < 256) →
    b64decode (b64encode bs) = some bs := by
  intro bs
  induction bs using b64encode.induct with
  | case1 => intro _; rfl
  | case2 b1 =>
      intro h
      have hb1 : b1 < 256 := h b1 (by simp)
      rw [b64encode, b64decode_pad2 _ _ (by omega) (by omega) (by omega)]
      have e1 : b1 / 4 * 4 + b1 % 4 * 16 / 16 = b1 := by omega
      rw [e1]
  | case3 b1 b2 =>
      intro h
      have hb1 : b1 < 256 := h b1 (by simp)
      have hb2 : b2 < 256 := h b2 (by simp)
      rw [b64encode, b64decode_pad1 _ _ _ (by omega) (by omega) (by omega) (by omega)]
      have e1 : b1 / 4 * 4 + (b1 % 4 * 16 + b2 / 16) / 16 = b1 := by omega
      have e2 : (b1 % 4 * 16 + b2 / 16) % 16 * 16 + b2 % 16 * 4 / 4 = b2 := by omega
      rw [e1, e2]
  | case4 b1 b2 b3 rest ih =>
      intro h
      have hb1 : b1 < 256 := h b1 (by simp)
      have hb2 : b2 < 256 := h b2 (by simp)
      have hb3 : b3 < 256 := h b3 (by simp)
      have hrest : ∀ b ∈ rest, b < 256 := fun b hb => h b (by simp [hb])
      rw [b64encode, b64decode_chunk _ _ _ _ _ (by omega) (by omega) (by omega) (by omega),
        ih hrest, Option.map_some']
      have e1 : b1 / 4 * 4 + (b1 % 4 * 16 + b2 / 16) / 16 = b1 := by omega
      have e2 : (b1 % 4 * 16 + b2 / 16) % 16 * 16 + (b2 % 16 * 4 + b3 / 64) / 4 = b2 := by
        omega
      have e3 : (b2 % 16 * 4 + b3 / 64) % 4 * 64 + b3 % 64 = b3 := by omega
      rw [e1, e2, e3]

lemma ctrXor_length (kb nonce : List Nat) :
    ∀ i bs, (ctrXor kb nonce i bs).length = bs.length := by
  intro i bs
  induction bs generalizing i with
  | nil => rfl
  | cons b rest ih => simp [ctrXor, ih]

lemma ctrXor_involutive (kb nonce : List Nat) :
    ∀ i bs, ctrXor kb nonce i (ctrXor kb nonce i bs) = bs := by
  intro i bs
  induction bs generalizing i with
  | nil => rfl
  | cons b rest ih =>
      simp only [ctrXor, ih]
      rw [Nat.xor_assoc, Nat.xor_self, Nat.xor_zero]

lemma keystreamByte_lt (kb nonce : List Nat) (i : Nat) :
    keystreamByte kb nonce i < 256 :=
  Nat.mod_lt _ (by omega)

lemma ctrXor_lt (kb nonce : List Nat) :
    ∀ i bs, (∀ b ∈ bs, b < 256) → ∀ b ∈ ctrXor kb nonce i bs, b < 256 := by
  intro i bs
  induction bs generalizing i with
  | nil => intro _ b hb; simp [ctrXor] at hb
  | cons x rest ih =>
      intro h b hb
      simp only [ctrXor, List.mem_cons] at hb
      rcases hb with hb | hb
      · subst hb
        have hx : x < 256 := h x (by simp)
        have hk := keystreamByte_lt kb nonce i
        have : x ^^^ keystreamByte kb nonce i < 2 ^ 8 :=
          Nat.xor_lt_two_pow (by norm_num [hx]) (by norm_num [hk])
        simpa using this
      · exact ih (i + 1) (fun y hy => h y (by simp [hy])) b hb

lemma tagBytes_length (kb nonce ct : List Nat) : (tagBytes kb nonce ct).length = 16 := by
  simp [tagBytes]

lemma tagBytes_lt (kb nonce ct : List Nat) : ∀ b ∈ tagBytes kb nonce ct, b < 256 := by
  intro b hb
  simp only [tagBytes, List.mem_map] at hb
  obtain ⟨j, _, rfl⟩ := hb
  exact Nat.mod_lt _ (by omega)

lemma lookupKey_updateKey {α : Type} (k : Nat) (f : α → α) :
    ∀ l : List (Nat × α), lookupKey k (updateKey k f l) = (lookupKey k l).map f := by
  intro l
  induction l with
  | nil => rfl
  | cons p rest ih =>
      obtain ⟨k', v⟩ := p
      simp only [updateKey, List.map_cons] at ih ⊢
      by_cases hk : k' = k
      · subst hk
        rw [if_pos rfl]
        simp [lookupKey]
      · rw [if_neg (by simpa using hk)]
        simp only [lookupKey, hk, if_false, if_neg hk]
        exact ih

lemma mem_updateKey_ne {α : Type} (k : Nat) (f : α → α) (l : List (Nat × α))
    (p : Nat × α) (hp : p ∈ updateKey k f l) (hne : p.1 ≠ k) : p ∈ l := by
  simp only [updateKey, List.mem_map] at hp
  obtain ⟨q, hq, hpq⟩ := hp
  by_cases hk : q.1 = k
  · rw [if_pos hk] at hpq
    exact absurd (by rw [← hpq]; exact hk) hne
  · rw [if_neg hk] at hpq
    exact hpq ▸ hq

lemma lookupKey_remove_previous (clients : List (Nat × ClientInfo)) (d : String)
    (cid : Nat) :
    lookupKey cid (remove_previous_device_connection clients d cid) =
      lookupKey cid clients := by
  induction clients with
  | nil => rfl
  | cons p rest ih =>
      obtain ⟨k', v⟩ := p
      by_cases hk : k' = cid
      · subst hk
        simp [remove_previous_device_connection, List.filter, lookupKey] at ih ⊢
      · by_cases hkeep : k' = cid ∨ v.device_id ≠ some d
        · simp only [remove_previous_device_connection, List.filter] at ih ⊢
          rw [decide_eq_true hkeep]
          simp [lookupKey, hk, ← ih, remove_previous_device_connection]
        · simp only [remove_previous_device_connection, List.filter] at ih ⊢
          rw [decide_eq_false hkeep]
          simp [lookupKey, hk, ← ih, remove_previous_device_connection]

lemma mem_remove_previous (clients : List (Nat × ClientInfo)) (d : String)
    (cid : Nat) (p : Nat × ClientInfo)
    (hp : p ∈ remove_previous_device_connection clients d cid) :
    p.1 = cid ∨ p.2.device_id ≠ some d := by
  rw [remove_previous_device_connection, List.mem_filter] at hp
  exact of_decide_eq_true hp.2

/-- After the eviction-then-update pipeline shared by `handle_pair_request`
and `handle_reconnect_request`, no session other than the current one bears
the device id. -/
lemma evicted_no_other_session (clients : List (Nat × ClientInfo)) (d : String)
    (cid : Nat) (f : ClientInfo → ClientInfo) (p : Nat × ClientInfo)
    (hp : p ∈ updateKey cid f (remove_previous_device_connection clients d cid))
    (hne : p.1 ≠ cid) : p.2.device_id ≠ some d := by
  have hp' := mem_updateKey_ne cid f _ p hp hne
  rcases mem_remove_previous clients d cid p hp' with h | h
  · exact absurd h hne
  · exact h

lemma aead_roundtrip (kb nonce pt : List Nat) :
    aeadDecrypt kb nonce (aeadEncrypt kb nonce pt) = some pt := by
  unfold aeadDecrypt aeadEncrypt
  have hct := ctrXor_length kb nonce 0 pt
  have htag := tagBytes_length kb nonce (ctrXor kb nonce 0 pt)
  have hlen : (ctrXor kb nonce 0 pt ++ tagBytes kb nonce (ctrXor kb nonce 0 pt)).length
      = pt.length + 16 := by
    simp [List.length_append, hct, htag]
  rw [hlen]
  have hnotlt : ¬ pt.length + 16 < 16 := by omega
  simp only [hnotlt, if_false]
  have hctlen : pt.length + 16 - 16 = (ctrXor kb nonce 0 pt).length := by omega
  rw [hctlen, List.take_left, List.drop_left]
  simp [ctrXor_involutive]

/-! ## Concrete fixtures used by the claim theorems and witnesses -/

/-- A valid secret key: base64 of 32 zero bytes. -/
def keyA : String := String.mk (b64encode (List.replicate 32 0))

/-- A second valid secret key: base64 of 32 one bytes. -/
def keyB : String := String.mk (b64encode (List.replicate 32 1))

def nonce0 : List Nat := List.replicate 12 0

def cfgEmpty : AppConfig := ⟨none, none, [], false, true, false⟩

def oraA : Ora := ⟨keyA, nonce0, 1700000000, "2023-11-14T22:13:20+00:00"⟩

def oraB : Ora := ⟨keyB, nonce0, 1700000100, "2023-11-14T22:15:00+00:00"⟩

/-- The auth token minted for `dev-1` under `keyA` in the fixture traces. -/
def tokenT : String := create_auth_token "dev-1" keyA 1700000000 nonce0

/-! ## Claim theorems -/

/-- C9: for every plaintext P and every valid key K (base64 of 32 bytes),
`decrypt(K, encrypt(K, P))` succeeds and returns P, for any 12-byte nonce
drawn by `encrypt`. -/
theorem encrypt_decrypt_roundtrip (key : String) (kb nonce pt : List Nat)
    (hk : b64decode key.data = some kb) (hlen : kb.length = 32)
    (hn : nonce.length = 12) (hnb : ∀ b ∈ nonce, b < 256)
    (hpb : ∀ b ∈ pt, b < 256) (hutf : isValidUtf8 pt = true) :
    (encrypt key nonce pt).bind (decrypt key) = Except.ok pt := by
  have h32 : ¬ (kb.length ≠ 32) := by omega
  have hbytes : ∀ b ∈ nonce ++ aeadEncrypt kb nonce pt, b < 256 := by
    intro b hb
    rcases List.mem_append.mp hb with h | h
    · exact hnb b h
    · unfold aeadEncrypt at h
      rcases List.mem_append.mp h with h | h
      · exact ctrXor_lt kb nonce 0 pt hpb b h
      · exact tagBytes_lt kb nonce _ b h
  have hdata : (String.mk (b64encode (nonce ++ aeadEncrypt kb nonce pt))).data
      = b64encode (nonce ++ aeadEncrypt kb nonce pt) := rfl
  have hlen2 : (nonce ++ aeadEncrypt kb nonce pt).length = pt.length + 28 := by
    simp only [aeadEncrypt, List.length_append, ctrXor_length, tagBytes_length, hn]
    omega
  have hshort : ¬ ((nonce ++ aeadEncrypt kb nonce pt).length < NONCE_SIZE) := by
    rw [hlen2]
    simp [NONCE_SIZE]
  have htake : (nonce ++ aeadEncrypt kb nonce pt).take NONCE_SIZE = nonce := by
    rw [show NONCE_SIZE = nonce.length from hn.symm, List.take_left]
  have hdrop : (nonce ++ aeadEncrypt kb nonce pt).drop NONCE_SIZE
      = aeadEncrypt kb nonce pt := by
    rw [show NONCE_SIZE = nonce.length from hn.symm, List.drop_left]
  simp only [encrypt, hk, if_neg h32]
  show decrypt key (String.mk (b64encode (nonce ++ aeadEncrypt kb nonce pt))) =
    Except.ok pt
  simp only [decrypt, hk, if_neg h32, hdata, b64_roundtrip _ hbytes, if_neg hshort,
    htake, hdrop, aead_roundtrip, hutf, if_true]

/-- Witness for C9 at the plaintext bytes of `"hi"` under `keyA` and the zero
nonce. -/
theorem encrypt_decrypt_roundtrip_witness :
    (encrypt keyA nonce0 [104, 105]).bind (decrypt keyA) = Except.ok [104, 105] :=
  encrypt_decrypt_roundtrip keyA (List.replicate 32 0) nonce0 [104, 105]
    (by decide) (by decide) (by decide) (by decide) (by decide) (by decide)

/-- C7 counterexample: under one valid key, three malformed blobs fail at
three different stages with three pairwise different error messages, so the
failure is not a single undifferentiated error. -/
theorem decrypt_errors_differ_cex :
    decrypt keyA "!!!!" = .error invalidDataErr ∧
    decrypt keyA (String.mk (b64encode [0, 0, 0, 0, 0])) = .error tooShortErr ∧
    decrypt keyA (String.mk (b64encode (List.replicate 30 0))) =
      .error decryptFailedErr ∧
    invalidDataErr ≠ tooShortErr ∧ tooShortErr ≠ decryptFailedErr ∧
    invalidDataErr ≠ decryptFailedErr := by decide

/-- C7 amended: for a valid key, `decrypt` fails with a stage-specific error:
base64 failure, the `< 12` length check and AEAD authentication failure each
have their own message; only the AEAD stage is a single opaque error. -/
theorem decrypt_stage_errors (key blob : String) (kb : List Nat)
    (hk : b64decode key.data = some kb) (hlen : kb.length = 32) :
    (b64decode blob.data = none → decrypt key blob = .error invalidDataErr) ∧
    (∀ data, b64decode blob.data = some data → data.length < NONCE_SIZE →
      decrypt key blob = .error tooShortErr) ∧
    (∀ data, b64decode blob.data = some data → ¬ data.length < NONCE_SIZE →
      aeadDecrypt kb (data.take NONCE_SIZE) (data.drop NONCE_SIZE) = none →
      decrypt key blob = .error decryptFailedErr) := by
  have h32 : ¬ (kb.length ≠ 32) := by omega
  refine ⟨?_, ?_, ?_⟩
  · intro hb
    simp only [decrypt, hk, if_neg h32, hb]
  · intro data hb hlt
    simp only [decrypt, hk, if_neg h32, hb, if_pos hlt]
  · intro data hb hge ha
    simp only [decrypt, hk, if_neg h32, hb, if_neg hge, ha]

/-- Witness for `decrypt_stage_errors`: the base64 stage at a concrete
non-base64 blob. -/
theorem decrypt_stage_errors_witness :
    decrypt keyA "****" = .error invalidDataErr :=
  (decrypt_stage_errors keyA "****" (List.replicate 32 0) (by decide)
    (by decide)).1 (by decide)

/-- Fixture: a server whose stored secret key is not valid base64 of 32
bytes, with one unauthenticated session. -/
def stBadKey : ServerSt :=
  ⟨"MMM", ⟨none, some "short", [], false, true, false⟩,
   [(0, ⟨none, none, false⟩)], 1, []⟩

def reqP : PairRequest := ⟨"dev-1", "Phone", none, "MMM"⟩

/-- C10: when the stored secret key makes `encrypt` fail (not base64 of
exactly 32 bytes), `create_auth_token` returns the empty string and
`handle_pair_request` still answers `pair_ack` with status `"paired"` and an
empty `auth_token`; no error reaches the client. -/
theorem pair_ack_paired_on_encrypt_failure (st : ServerSt) (client_id : Nat)
    (request : PairRequest) (o : Ora) (k : String) (c : ClientInfo)
    (hm : request.master_token = st.token)
    (hsk : st.config.secret_key = some k)
    (hbad : ∀ kb, b64decode k.data = some kb → kb.length ≠ 32)
    (hc : lookupKey client_id st.clients = some c) :
    create_auth_token request.device_id k o.now_ts o.nonce = "" ∧
    (handle_pair_request st client_id request o).2 =
      [(client_id, .pair_ack "paired" "" request.device_id o.now_ts)] := by
  have htok : create_auth_token request.device_id k o.now_ts o.nonce = "" := by
    unfold create_auth_token encrypt
    cases hbk : b64decode k.data with
    | none => simp
    | some kb => simp [hbad kb hbk]
  refine ⟨htok, ?_⟩
  unfold handle_pair_request
  rw [if_neg (show ¬ (request.master_token ≠ st.token) by simp [hm])]
  simp only [hsk, Option.isNone_some, Bool.false_eq_true, if_false,
    Option.getD_some, htok]
  have hlook : lookupKey client_id (updateKey client_id
      (fun c => { c with authenticated := true,
                         device_id := some request.device_id,
                         device_name := some request.device_name })
      (remove_previous_device_connection st.clients request.device_id client_id)) =
      some { c with authenticated := true,
                    device_id := some request.device_id,
                    device_name := some request.device_name } := by
    rw [lookupKey_updateKey, lookupKey_remove_previous, hc]
    rfl
  simp [send_to_client, hlook]

/-- Witness for C10 at the `stBadKey` fixture. -/
theorem pair_ack_paired_on_encrypt_failure_witness :
    create_auth_token "dev-1" "short" 1700000000 nonce0 = "" ∧
    (handle_pair_request stBadKey 0 reqP oraA).2 =
      [(0, .pair_ack "paired" "" "dev-1" 1700000000)] :=
  pair_ack_paired_on_encrypt_failure stBadKey 0 reqP oraA "short" ⟨none, none, false⟩
    (by decide) (by decide)
    (fun kb hkb => by
      rw [show b64decode ("short" : String).data = none from by decide] at hkb
      cases hkb)
    (by decide)

def blankClient : ClientInfo := ⟨none, none, false⟩

/-- Fixture: a scan for `dev-1` carrying the master token `"MMM"` and a
payload. -/
def scanMsgMaster : ScanMessage :=
  ⟨"dev-1", some "P", none, 1700000000, some ⟨"012345", none⟩, some "MMM", none⟩

def stTwoClients : ServerSt :=
  ⟨"MMM", cfgEmpty, [(0, blankClient), (1, blankClient)], 2, []⟩

/-- C1 counterexample: two sockets each send an accepted scan (master token)
for `dev-1`; neither scan evicts the other session, so afterwards two live
sessions are authenticated with the same device id, violating the claimed
invariant. -/
theorem scan_does_not_evict_cex :
    (handle_scan_message stTwoClients 0 scanMsgMaster).2 =
      [(0, .scan_ack "received" "012345")] ∧
    (handle_scan_message (handle_scan_message stTwoClients 0 scanMsgMaster).1 1
        scanMsgMaster).2 = [(1, .scan_ack "received" "012345")] ∧
    ¬ at_most_one_session_per_device
      (handle_scan_message (handle_scan_message stTwoClients 0 scanMsgMaster).1 1
        scanMsgMaster).1.clients := by decide

/-- C1 amended: duplicate-device eviction holds on `pair` and on `reconnect`:
after either handler accepts, no session other than the current one bears the
request's device id.  (An accepted `scan` performs no eviction, as the
counterexample shows.) -/
theorem pair_reconnect_evict_other_sessions (st : ServerSt) (client_id : Nat)
    (o : Ora) :
    (∀ request : PairRequest, request.master_token = st.token →
      ∀ p ∈ (handle_pair_request st client_id request o).1.clients,
        p.1 ≠ client_id → p.2.device_id ≠ some request.device_id) ∧
    (∀ request : ReconnectRequest,
      st.config.is_device_authorized request.device_id = true →
      ∀ k, st.config.secret_key = some k →
      validate_auth_token request.auth_token request.device_id k = true →
      ∀ p ∈ (handle_reconnect_request st client_id request o).1.clients,
        p.1 ≠ client_id → p.2.device_id ≠ some request.device_id) := by
  constructor
  · intro request hm p hp hne
    unfold handle_pair_request at hp
    rw [if_neg (show ¬ (request.master_token ≠ st.token) by simp [hm])] at hp
    dsimp only at hp
    exact evicted_no_other_session st.clients request.device_id client_id _ p hp hne
  · intro request hauth k hsk hval p hp hne
    unfold handle_reconnect_request at hp
    rw [if_neg (show ¬ ¬ (st.config.is_device_authorized request.device_id = true)
      by simp [hauth])] at hp
    rw [hsk] at hp
    dsimp only at hp
    rw [if_neg (show ¬ ¬ (validate_auth_token request.auth_token request.device_id k
      = true) by simp [hval])] at hp
    dsimp only at hp
    exact evicted_no_other_session st.clients request.device_id client_id _ p hp hne

/-- Fixture: one fresh session plus an old authenticated session for
`dev-1`. -/
def stEvict : ServerSt :=
  ⟨"MMM", cfgEmpty, [(0, blankClient), (7, ⟨some "dev-1", some "Old", true⟩)], 8, []⟩

/-- Witness for the eviction theorem: pairing `dev-1` on client 0 removes the
old client-7 session. -/
theorem pair_reconnect_evict_other_sessions_witness :
    ((7 : Nat), (⟨some "dev-1", some "Old", true⟩ : ClientInfo)) ∉
      (handle_pair_request stEvict 0 reqP oraA).1.clients :=
  fun hmem =>
    (pair_reconnect_evict_other_sessions stEvict 0 oraA).1 reqP rfl _ hmem
      (by decide) rfl

/-- Fixture: a session already authenticated for `dev-1` while the credential
store does not contain `dev-1` (as after a master-token scan, which never
adds the device to the store). -/
def stAuthNoStore : ServerSt :=
  ⟨"MMM", cfgEmpty, [(0, ⟨some "dev-1", some "P", true⟩)], 1, []⟩

/-- C5 counterexample: a scan with a payload and `token` equal to the active
master token is rejected with `error("Invalid token")` when the session's
`authenticated` flag is already set and the device is not in the store: the
master-token rule is never reached for authenticated sessions, so acceptance
is not independent of the session's authentication flag. -/
theorem master_token_scan_rejected_cex :
    handle_scan_message stAuthNoStore 0 scanMsgMaster =
      (stAuthNoStore, [(0, .error_msg "Invalid token")]) := by decide

/-- C5 amended: a scan with a payload whose `token` equals the master token
is accepted — `scan_ack "received"` plus a BarcodeEvent on the delivery
channel — when the session is not yet authenticated and the message carries
no `authToken` field; the validation rules are exclusive if/else-if guards
(session state and field presence select exactly one rule), not a first-match
cascade. -/
theorem scan_master_token_accept (st : ServerSt) (client_id : Nat)
    (scan_msg : ScanMessage) (c : ClientInfo) (p : ScanPayload)
    (hc : lookupKey client_id st.clients = some c)
    (hauth : c.authenticated = false)
    (hp : scan_msg.payload = some p)
    (hat : scan_msg.auth_token = none)
    (ht : scan_msg.token = some st.token) :
    (handle_scan_message st client_id scan_msg).2 =
      [(client_id, .scan_ack "received" p.barcode)] ∧
    (handle_scan_message st client_id scan_msg).1.queue =
      st.queue ++ [⟨p.barcode, scan_msg.timestamp, scan_msg.device_id,
                    scan_msg.device_name⟩] := by
  have hlook : lookupKey client_id (updateKey client_id
      (fun c => { c with authenticated := true,
                         device_id := some scan_msg.device_id,
                         device_name := scan_msg.device_name }) st.clients) =
      some { c with authenticated := true,
                    device_id := some scan_msg.device_id,
                    device_name := scan_msg.device_name } := by
    rw [lookupKey_updateKey, hc]
    rfl
  unfold handle_scan_message
  simp only [hp, hc, hat, ht, Option.map_some', Option.getD_some, hauth,
    Bool.false_eq_true, if_false, beq_self_eq_true, if_true]
  simp [send_to_client, hlook]

/-- Witness for `scan_master_token_accept` on a fresh session of
`stTwoClients`. -/
theorem scan_master_token_accept_witness :
    (handle_scan_message stTwoClients 0 scanMsgMaster).2 =
      [(0, .scan_ack "received" "012345")] ∧
    (handle_scan_message stTwoClients 0 scanMsgMaster).1.queue =
      [⟨"012345", 1700000000, "dev-1", some "P"⟩] :=
  scan_master_token_accept stTwoClients 0 scanMsgMaster blankClient
    ⟨"012345", none⟩ (by decide) (by decide) (by decide) (by decide) (by decide)

def stOneClient : ServerSt := ⟨"MMM", cfgEmpty, [(0, blankClient)], 1, []⟩

/-- C8 counterexample: an inbound frame that is not valid JSON produces NO
reply at all (the read loop falls through without `send_error`); the session
stays and a subsequent handshake is acknowledged, but the claimed
`error` message is never sent. -/
theorem malformed_json_silently_ignored_cex :
    handle_text_frame stOneClient 0 .notJson oraA = (stOneClient, []) ∧
    handle_text_frame stOneClient 0 .handshake oraA =
      (stOneClient, [(0, .handshake_ack 0 1700000000)]) := by decide

/-- C8 amended: a non-JSON frame (or JSON without an action) is ignored
without any reply and without state change, so the socket stays open and a
subsequent handshake on the same session still receives `handshake_ack`;
an `error` reply is produced only for schema mismatches of known actions
such as `pair`. -/
theorem malformed_frame_behavior (st : ServerSt) (client_id : Nat) (o : Ora)
    (hc : (lookupKey client_id st.clients).isSome = true) :
    handle_text_frame st client_id .notJson o = (st, []) ∧
    handle_text_frame st client_id .noAction o = (st, []) ∧
    handle_text_frame st client_id .handshake o =
      (st, [(client_id, .handshake_ack client_id o.now_ts)]) ∧
    handle_text_frame st client_id .pairBad o =
      (st, [(client_id, .error_msg "Invalid pair request format")]) := by
  obtain ⟨c, hc'⟩ := Option.isSome_iff_exists.mp hc
  refine ⟨rfl, rfl, ?_, ?_⟩ <;>
    simp [handle_text_frame, send_to_client, send_error, hc']

/-- Witness for `malformed_frame_behavior` at the one-client fixture. -/
theorem malformed_frame_behavior_witness :
    handle_text_frame stOneClient 0 .notJson oraA = (stOneClient, []) ∧
    handle_text_frame stOneClient 0 .noAction oraA = (stOneClient, []) ∧
    handle_text_frame stOneClient 0 .handshake oraA =
      (stOneClient, [(0, .handshake_ack 0 1700000000)]) ∧
    handle_text_frame stOneClient 0 .pairBad oraA =
      (stOneClient, [(0, .error_msg "Invalid pair request format")]) :=
  malformed_frame_behavior stOneClient 0 oraA (by decide)

/-- Fixture: every external clipboard/keystroke operation succeeds. -/
def envAllOk : KbEnv :=
  ⟨true, true, true, true, true, true, true, true, true, true, true, true, true, true⟩

/-- C6 counterexample: the ydotool and xdotool backends succeed while leaving
the clipboard holding the barcode — the previous clipboard value `"X"` is
never snapshotted nor written back. -/
theorem backends_no_restore_cex :
    type_barcode_ydotool envAllOk "B" (some "X") =
      .ok (some "B", [.ctrlV, .enter]) ∧
    type_barcode_xdotool envAllOk "B" (some "X") =
      .ok (some "B", [.ctrlV, .enter]) ∧
    (some "B" : Option String) ≠ some "X" := by decide

/-- C6 amended: only the cross-platform (enigo) backend snapshots the
clipboard and writes a previously present value back after Ctrl+V and Enter;
whenever the ydotool or xdotool backend succeeds it leaves the barcode on
the clipboard. -/
theorem enigo_restores_clipboard (env : KbEnv) (barcode : String)
    (clip : Option String) :
    (∀ prev res, clip = some prev →
      type_barcode_enigo env barcode clip = .ok res →
      res = (some prev, [.ctrlV, .enter])) ∧
    (∀ res, type_barcode_ydotool env barcode clip = .ok res →
      res = (some barcode, [.ctrlV, .enter])) ∧
    (∀ res, type_barcode_xdotool env barcode clip = .ok res →
      res = (some barcode, [.ctrlV, .enter])) := by
  refine ⟨?_, ?_, ?_⟩
  · intro prev res hclip h
    subst hclip
    unfold type_barcode_enigo at h
    repeat' split at h
    all_goals simp_all
  · intro res h
    unfold type_barcode_ydotool at h
    repeat' split at h
    all_goals simp_all
  · intro res h
    unfold type_barcode_xdotool at h
    repeat' split at h
    all_goals simp_all

/-- Witness for `enigo_restores_clipboard`: a concrete successful run with
previous clipboard text `"X"` whose result the theorem pins to restoring
`"X"`. -/
theorem enigo_restores_clipboard_witness :
    type_barcode_enigo envAllOk "B" (some "X") = .ok (some "X", [.ctrlV, .enter]) ∧
    ((some "X", [KeyEvt.ctrlV, KeyEvt.enter]) : Option String × List KeyEvt) =
      (some "X", [.ctrlV, .enter]) :=
  ⟨by decide,
   (enigo_restores_clipboard envAllOk "B" (some "X")).1 "X"
     (some "X", [.ctrlV, .enter]) rfl (by decide)⟩

/-! ### Supervisor traces (lib.rs semantics) used for C2, C3, C4 -/

def app0 : AppSt := ⟨none, none, cfgEmpty⟩

/-- Trace: start with token `"MMM"`, accept a socket, pair `dev-1`. -/
def appPaired : AppSt × List (Nat × OutMsg) :=
  app_handle (app_accept (start_server app0 "MMM" "10.0.0.2")) 0 (.pairOk reqP) oraA

/-- Trace continuation: `regenerate_token` (new token `"NNN"`), accept a new
socket. -/
def appAfterRegen : AppSt :=
  app_accept (regenerate_token appPaired.1 "NNN" "10.0.0.2")

/-- Trace continuation: the device reconnects with the auth token it was
issued at pairing. -/
def reconnectAfterRegen : AppSt × List (Nat × OutMsg) :=
  app_handle appAfterRegen 0 (.reconnectOk ⟨"dev-1", tokenT⟩) oraA

/-- C2: a device paired during the current transport run holds token
`tokenT` from its `pair_ack`, yet after `regenerate_token` its reconnect is
answered `"unauthorized"`: the new transport's config is cloned from the
supervisor's config, which never learned of the pairing. -/
theorem reconnect_after_regenerate_unauthorized :
    appPaired.2 = [(0, .pair_ack "paired" tokenT "dev-1" 1700000000)] ∧
    reconnectAfterRegen.2 =
      [(0, .reconnect_ack_err "unauthorized"
        "Device not authorized. Please pair again.")] := by decide

/-- Fixture: config as loaded at application start with `dev-1` already
authorized under `keyA`. -/
def cfgSeeded : AppConfig :=
  ⟨none, some keyA,
   [("dev-1", ⟨"dev-1", "Phone", none, "2023-01-01T00:00:00+00:00",
               "2023-01-01T00:00:00+00:00"⟩)], false, true, false⟩

/-- Trace: start a server over the seeded config, then revoke `dev-1`. -/
def appRevoked : AppSt :=
  revoke_device (start_server ⟨none, none, cfgSeeded⟩ "MMM" "10.0.0.2") "dev-1"

/-- Trace continuation: `dev-1` reconnects on the still-running transport
with a valid auth token. -/
def reconnectAfterRevoke : AppSt × List (Nat × OutMsg) :=
  app_handle (app_accept appRevoked) 0 (.reconnectOk ⟨"dev-1", tokenT⟩) oraA

/-- C3: after `revoke_device("dev-1")` completes, `dev-1` is gone from the
supervisor's config, yet a reconnect on the live transport is still answered
`"connected"`: the running server keeps its own clone of the config taken at
`start_server`, which `revoke_device` never touches. -/
theorem reconnect_after_revoke_still_connected :
    appRevoked.config.is_device_authorized "dev-1" = false ∧
    reconnectAfterRevoke.2 =
      [(0, .reconnect_ack_ok "connected" "dev-1" 1700000000)] := by decide

/-- Trace: after `regenerate_token`, the same device pairs again with the new
master token; the oracle hands out the distinct fresh key `keyB`. -/
def appPairedAgain : AppSt × List (Nat × OutMsg) :=
  app_handle appAfterRegen 0 (.pairOk ⟨"dev-1", "Phone", none, "NNN"⟩) oraB

/-- C4: the secret key is generated twice within one application run: the
first pair stores `keyA` in the first transport's config clone, but after
`regenerate_token` the new transport again starts with no secret key (the
supervisor's config never recorded `keyA`), so the second pair generates and
persists `keyB`. -/
theorem secret_key_generated_twice_cex :
    (appPaired.1.server.map (fun s => s.config.secret_key)) = some (some keyA) ∧
    (appAfterRegen.server.map (fun s => s.config.secret_key)) = some none ∧
    (appPairedAgain.1.server.map (fun s => s.config.secret_key)) = some (some keyB) ∧
    keyA ≠ keyB := by decide

end ScanLink
